import Mathlib

/-!
# Verification of the xraycheck Hysteria validation engine

Shallow embedding of `src/hysteria_checker.py` (`check_hysteria_key`, the
startup/teardown machinery) and `src/speedtest_hysteria.py`
(`speed_test_hysteria_key`, `_test_download_speed`), together with the
inclusion filter of `main`.

The helper modules `lib/config`, `lib/parsing`, `lib/port_pool` and
`lib/utils` are not part of the sources at hand; their observable behaviour
(parse result, allocated port, request outcomes) enters the embedding as an
oracle environment, and the port pool itself is modelled from the spec where
a claim needs its semantics.

Every call the Python functions make to an external effect (take_port,
tempfile.mkstemp, config write, run_hysteria, _wait_for_port, make_request,
kill_hysteria, os.unlink, return_port) is recorded as an `Event` in a trace,
so temporal and frame claims become statements about the trace.

Times are rationals (`ℚ`): the claims under scrutiny are about control flow
and exact thresholds, not floating-point rounding of the clock.
-/

namespace XrayCheck

/-- The metrics dictionary built by `check_hysteria_key`
(`src/hysteria_checker.py`, lines 208-214). -/
structure Metrics where
  response_times : List ℚ
  successful_urls : ℕ
  failed_urls : ℕ
  total_requests : ℕ
  successful_requests : ℕ
deriving DecidableEq, Repr

/-- The initial all-zero/empty metrics dictionary. -/
def Metrics.init : Metrics :=
  { response_times := []
    successful_urls := 0
    failed_urls := 0
    total_requests := 0
    successful_requests := 0 }

/-- Observable outcome of one `make_request` call followed by
`check_response_valid` (both live in the external `lib/utils`):
whether a truthy response came back, whether a transport error was
reported, whether the validity check passed, and the elapsed time. -/
structure AttemptResult where
  gotResponse : Bool
  error : Bool
  valid : Bool
  elapsed : ℚ
deriving DecidableEq, Repr

/-- One external effect performed by a validation task, in program order. -/
inductive Event where
  /-- `take_port()` returned this port. -/
  | takePort (p : ℕ)
  /-- `take_port()` returned `None` (pool exhausted). -/
  | takePortNone
  /-- `tempfile.mkstemp` created the transient config file. -/
  | mkstemp
  /-- the config YAML was written into the transient file. -/
  | writeConfig
  /-- `run_hysteria` spawned the client process. -/
  | spawn
  /-- `_wait_for_port` was entered (TCP readiness wait attempted). -/
  | waitPort
  /-- one `make_request` probe was issued through the SOCKS endpoint. -/
  | probe
  /-- `kill_hysteria(proc)` ran to completion. -/
  | kill
  /-- `os.unlink(config_path)` ran (tolerating a missing file). -/
  | unlink
  /-- `return_port(port)` handed this port back to the pool. -/
  | returnPort (p : ℕ)
deriving DecidableEq, Repr

/-- Configuration values read from `lib.config` / the environment that the
embedded control flow depends on. `STRONG_ATTEMPTS` is kept as `ℕ`: the code
only ever uses `max(2, STRONG_ATTEMPTS)`, which takes the same values over
`ℕ` as over `ℤ`. -/
structure Config where
  STRONG_STYLE_TEST : Bool
  STRONG_ATTEMPTS : ℕ
  STRONG_MAX_RESPONSE_TIME : ℚ
  MAX_RESPONSE_TIME : ℚ
  REQUIRE_HTTPS : Bool
  STRICT_MODE : Bool
  STRICT_MODE_REQUIRE_ALL : Bool
  STABILITY_CHECKS : ℕ
  STABILITY_CHECK_DELAY : ℚ
  REQUESTS_PER_URL : ℕ
  MIN_SUCCESSFUL_REQUESTS : ℕ
  MIN_SUCCESSFUL_URLS : ℕ
  TEST_URLS : List String
  TEST_URLS_HTTPS : List String
  CLIENT_TEST_HTTPS : String
  MAX_LATENCY_MS : ℚ
  HYSTERIA_STARTUP_WAIT : ℚ
  HYSTERIA_STARTUP_POLL : ℚ
deriving Repr

/-- Oracle for everything `check_hysteria_key` observes from the outside
world on one candidate. `procDeadAt k` is the value of
`proc.poll() is not None` at the k-th top-of-loop liveness check of the
startup wait; `strictAttempt i` / `stabilityAttempt r u j` give the outcome
of the corresponding `make_request` call. -/
structure Env where
  parsedProtocol : Option String
  takePortResult : Option ℕ
  configWriteOk : Bool
  spawnOk : Bool
  procDeadAt : ℕ → Bool
  portReady : Bool
  strictAttempt : ℕ → AttemptResult
  stabilityAttempt : ℕ → ℕ → ℕ → AttemptResult

/-- Number of top-of-loop liveness checks performed by
`while waited < HYSTERIA_STARTUP_WAIT: ...; waited += HYSTERIA_STARTUP_POLL`
(`src/hysteria_checker.py`, lines 241-247): checks happen at
`waited = k * poll` for every `k` with `k * poll < wait`, i.e. `⌈wait/poll⌉`
of them (for `poll > 0`). -/
def startupCheckCount (wait poll : ℚ) : ℕ :=
  (⌈wait / poll⌉ : ℤ).toNat

/-- `true` iff `proc.poll() is not None` at one of the startup-wait
liveness checks, i.e. the client died before the startup budget elapsed. -/
def startupDied (deadAt : ℕ → Bool) (checks : ℕ) : Bool :=
  (List.range checks).any deadAt

/-- Success test of one strict-protocol attempt
(`src/hysteria_checker.py`, lines 275-277): truthy response, no transport
error, validity check passed, and — unless the max-time filter is disabled —
elapsed time not above `max_ok_time`. -/
def isStrictSuccess (maxOkTime : ℚ) (a : AttemptResult) : Bool :=
  a.gotResponse && !a.error && a.valid && !(maxOkTime > 0 && a.elapsed > maxOkTime)

/-- `max_ok_time` of the strict protocol (`src/hysteria_checker.py`,
line 261): `STRONG_MAX_RESPONSE_TIME` when positive, else
`MAX_RESPONSE_TIME`. -/
def strictMaxOkTime (cfg : Config) : ℚ :=
  if cfg.STRONG_MAX_RESPONSE_TIME > 0 then cfg.STRONG_MAX_RESPONSE_TIME
  else cfg.MAX_RESPONSE_TIME

/-- `attempts_total = max(2, STRONG_ATTEMPTS)`
(`src/hysteria_checker.py`, line 265). -/
def strictAttemptsTotal (cfg : Config) : ℕ :=
  max 2 cfg.STRONG_ATTEMPTS

/-- The outcomes of the strict protocol's attempts, in order. -/
def strictAttemptList (cfg : Config) (env : Env) : List AttemptResult :=
  (List.range (strictAttemptsTotal cfg)).map env.strictAttempt

/-- Number of successful strict attempts (`success_count` at loop exit). -/
def strictSuccessCount (cfg : Config) (env : Env) : ℕ :=
  ((strictAttemptList cfg env).filter (isStrictSuccess (strictMaxOkTime cfg))).length

/-- The elapsed times appended to `metrics["response_times"]` by the strict
loop: exactly the elapsed times of the successful attempts, in order. -/
def strictSamples (cfg : Config) (env : Env) : List ℚ :=
  ((strictAttemptList cfg env).filter (isStrictSuccess (strictMaxOkTime cfg))).map
    (fun a => a.elapsed)

/-- Result of the strict protocol (`src/hysteria_checker.py`, lines
260-285): pass iff at least `min_success = 2` attempts succeeded;
`response_times` collects the successful attempts' elapsed times either
way, `successful_requests`/`successful_urls` are only set on pass. -/
def strictResult (cfg : Config) (env : Env) : Bool × Metrics :=
  let succ := strictSuccessCount cfg env
  let m : Metrics :=
    { response_times := strictSamples cfg env
      successful_urls := 0
      failed_urls := 0
      total_requests := strictAttemptsTotal cfg
      successful_requests := 0 }
  if succ ≥ 2 then
    (true, { m with successful_requests := succ, successful_urls := 1, failed_urls := 0 })
  else
    (false, m)

/-- The `all_urls` list of the stability protocol
(`src/hysteria_checker.py`, lines 288-294): http-tagged `TEST_URLS`, then
https-tagged `TEST_URLS_HTTPS`, falling back to the single canonical https
URL when both lists are empty. -/
def allUrls (cfg : Config) : List (String × String) :=
  let urls := cfg.TEST_URLS.map (fun u => (u, "http")) ++
    cfg.TEST_URLS_HTTPS.map (fun u => (u, "https"))
  if urls.isEmpty then [(cfg.CLIENT_TEST_HTTPS, "https")] else urls

/-- Success test of one stability-protocol attempt
(`src/hysteria_checker.py`, lines 308-310): like the strict test but with
`MAX_RESPONSE_TIME` as the time cap. -/
def isStabilitySuccess (cfg : Config) (a : AttemptResult) : Bool :=
  a.gotResponse && !a.error && a.valid &&
    !(cfg.MAX_RESPONSE_TIME > 0 && a.elapsed > cfg.MAX_RESPONSE_TIME)

/-- `successful_urls_count` at the end of round `r`: the number of URLs
whose successful-request count reached `MIN_SUCCESSFUL_REQUESTS`. -/
def roundUrlSuccessCount (cfg : Config) (env : Env) (r : ℕ) : ℕ :=
  ((List.range (allUrls cfg).length).filter (fun u =>
    ((List.range cfg.REQUESTS_PER_URL).filter (fun j =>
      isStabilitySuccess cfg (env.stabilityAttempt r u j))).length ≥
        cfg.MIN_SUCCESSFUL_REQUESTS)).length

/-- The pass/fail verdict appended to `stability_results` for round `r`
(`src/hysteria_checker.py`, lines 316-323): all URLs successful in the
strict sub-mode, else at least `MIN_SUCCESSFUL_URLS`; forcibly failed when
`REQUIRE_HTTPS` is set and no https-tagged URL is in the list. -/
def roundPassed (cfg : Config) (env : Env) (r : ℕ) : Bool :=
  let cnt := roundUrlSuccessCount cfg env r
  let passed :=
    if cfg.STRICT_MODE && cfg.STRICT_MODE_REQUIRE_ALL then
      cnt == (allUrls cfg).length
    else
      decide (cnt ≥ cfg.MIN_SUCCESSFUL_URLS)
  if cfg.REQUIRE_HTTPS && !((allUrls cfg).any (fun ut => ut.2 == "https")) then
    false
  else
    passed

/-- The `stability_results` list after all `STABILITY_CHECKS` rounds. -/
def stabilityRoundResults (cfg : Config) (env : Env) : List Bool :=
  (List.range cfg.STABILITY_CHECKS).map (roundPassed cfg env)

/-- All elapsed times appended to `metrics["response_times"]` by the
stability loops, in program order: per round, per URL, per request, the
elapsed time of each successful attempt. -/
def stabilitySamples (cfg : Config) (env : Env) : List ℚ :=
  (List.range cfg.STABILITY_CHECKS).flatMap (fun r =>
    (List.range (allUrls cfg).length).flatMap (fun u =>
      (((List.range cfg.REQUESTS_PER_URL).map (env.stabilityAttempt r u)).filter
        (isStabilitySuccess cfg)).map (fun a => a.elapsed)))

/-- Total number of `make_request` calls issued by the stability protocol. -/
def stabilityProbeCount (cfg : Config) : ℕ :=
  cfg.STABILITY_CHECKS * (allUrls cfg).length * cfg.REQUESTS_PER_URL

/-- Result of the stability protocol (`src/hysteria_checker.py`, lines
287-337). When `STABILITY_CHECKS > 1` and some round failed, the candidate
fails with `successful_urls`/`failed_urls` left at 0; otherwise the final
availability is recomputed from the LAST round's `successful_urls_count`
(the Python variable left over from the loop) — the per-round forced-https
failure does not enter this recomputation, which only forces `False` when
the URL list itself is empty (impossible after the fallback). Requires
`STABILITY_CHECKS ≥ 1`; with 0 rounds the Python code raises `NameError`
(`successful_urls_count` unbound), a path no claim touches. -/
def stabilityResult (cfg : Config) (env : Env) : Bool × Metrics :=
  let m0 : Metrics :=
    { response_times := stabilitySamples cfg env
      successful_urls := 0
      failed_urls := 0
      total_requests := stabilityProbeCount cfg
      successful_requests := (stabilitySamples cfg env).length }
  if cfg.STABILITY_CHECKS > 1 && !((stabilityRoundResults cfg env).all id) then
    (false, m0)
  else
    let lastCount := roundUrlSuccessCount cfg env (cfg.STABILITY_CHECKS - 1)
    let avail :=
      if cfg.STRICT_MODE && cfg.STRICT_MODE_REQUIRE_ALL then
        lastCount == (allUrls cfg).length
      else
        decide (lastCount ≥ cfg.MIN_SUCCESSFUL_URLS)
    let avail := if cfg.REQUIRE_HTTPS && (allUrls cfg).isEmpty then false else avail
    (avail, { m0 with
                successful_urls := lastCount
                failed_urls := (allUrls cfg).length - lastCount })

/-- `not parsed or parsed.get("protocol") not in ("hysteria", "hysteria2")`
(`src/hysteria_checker.py`, line 216), negated: a parse result exists and
its protocol is hysteria or hysteria2. A parsed dict without a protocol key
behaves like any non-matching value. -/
def protocolOk (parsed : Option String) : Bool :=
  match parsed with
  | none => false
  | some p => p == "hysteria" || p == "hysteria2"

/-- One `Event.probe` per `make_request` call. -/
def probeEvents (n : ℕ) : List Event :=
  List.replicate n Event.probe

/-- Shallow embedding of `check_hysteria_key`
(`src/hysteria_checker.py`, lines 203-345), returning the pass verdict, the
metrics dict, and the trace of external effects in program order. Key
trace facts read off the source:
* the write-failure path (lines 227-229) returns the port but never
  unlinks the `mkstemp` file;
* the startup-death path (lines 243-245) and the port-wait-timeout path
  (lines 249-251) call `return_port` inline and then, via the `finally`
  block (lines 339-345), run `kill_hysteria`, `unlink`, `return_port`
  again — so their first `return_port` precedes `kill_hysteria`;
* every path through the `try` body ends with the `finally` events
  `kill`, `unlink`, `returnPort` in that order. -/
def check_hysteria_key (cfg : Config) (env : Env) : Bool × Metrics × List Event :=
  if !(protocolOk env.parsedProtocol) then
    (false, Metrics.init, [])
  else
    match env.takePortResult with
    | none => (false, Metrics.init, [Event.takePortNone])
    | some port =>
      let evAcq : List Event := [Event.takePort port, Event.mkstemp]
      if !env.configWriteOk then
        (false, Metrics.init, evAcq ++ [Event.returnPort port])
      else
        let evCfg := evAcq ++ [Event.writeConfig]
        if !env.spawnOk then
          (false, Metrics.init, evCfg ++ [Event.returnPort port, Event.unlink])
        else
          let evSpawn := evCfg ++ [Event.spawn]
          let evFinally : List Event := [Event.kill, Event.unlink, Event.returnPort port]
          let checks := startupCheckCount cfg.HYSTERIA_STARTUP_WAIT cfg.HYSTERIA_STARTUP_POLL
          if startupDied env.procDeadAt checks then
            (false, Metrics.init, evSpawn ++ [Event.returnPort port] ++ evFinally)
          else if !env.portReady then
            (false, Metrics.init, evSpawn ++ [Event.waitPort, Event.returnPort port] ++ evFinally)
          else
            let evReady := evSpawn ++ [Event.waitPort]
            if cfg.STRONG_STYLE_TEST then
              let r := strictResult cfg env
              (r.1, r.2, evReady ++ probeEvents (strictAttemptsTotal cfg) ++ evFinally)
            else
              let r := stabilityResult cfg env
              (r.1, r.2, evReady ++ probeEvents (stabilityProbeCount cfg) ++ evFinally)

/-- Python's `round(q, 2)` on an exact value: round half to even at two
decimal places (used by `_test_download_speed`). -/
def pyRound2 (q : ℚ) : ℚ :=
  let y := q * 100
  let f : ℤ := ⌊y⌋
  let r := y - f
  (if r < 1/2 then (f : ℚ)
   else if r > 1/2 then (f : ℚ) + 1
   else if f % 2 = 0 then (f : ℚ) else (f : ℚ) + 1) / 100

/-- Observable outcome of one `requests.get` download in
`_test_download_speed`: whether a `RequestException` was raised, the status
code, the bytes accumulated by the `iter_content` loop before it finished
or hit the timeout break, and the total elapsed time. -/
structure DownloadOutcome where
  requestError : Bool
  statusCode : ℕ
  downloaded : ℕ
  elapsed : ℚ
deriving DecidableEq, Repr

/-- Shallow embedding of `_test_download_speed`
(`src/speedtest_hysteria.py`, lines 77-103): `None` on a transport
exception, on a non-200 status, or when the whole download took less than
the 0.3 s anti-noise floor; otherwise bits transferred divided by elapsed
seconds in Mbps, rounded to two decimals. -/
def testDownloadSpeed (d : DownloadOutcome) : Option ℚ :=
  if d.requestError then none
  else if d.statusCode ≠ 200 then none
  else if d.elapsed < 3/10 then none
  else some (pyRound2 ((d.downloaded * 8 : ℚ) / (d.elapsed * 1000000)))

/-- Oracle for `speed_test_hysteria_key` on one candidate.
`latencyStop i` is `true` when `time.perf_counter() >= deadline` held at the
top of the i-th latency-loop iteration (the loop breaks there);
`download` is the outcome of the (at most one) `_test_download_speed`
request the selected mode performs. -/
structure SpeedEnv where
  parsedProtocol : Option String
  takePortResult : Option ℕ
  configWriteOk : Bool
  spawnOk : Bool
  procDeadAt : ℕ → Bool
  portReady : Bool
  latencyStop : ℕ → Bool
  latencyAttempt : ℕ → AttemptResult
  download : DownloadOutcome

/-- Configuration/arguments of `speed_test_hysteria_key` that the embedded
control flow depends on. -/
structure SpeedConfig where
  metric : String
  requests_count : ℕ
  mode : String
  download_url_small : String
  download_url_medium : String
  HYSTERIA_STARTUP_WAIT : ℚ
  HYSTERIA_STARTUP_POLL : ℚ
deriving Repr

/-- Indices of the latency-loop iterations that actually issue a request:
all `i < requests_count` before the first `i` at which the deadline check
broke the loop. -/
def latencyIndices (sc : SpeedConfig) (env : SpeedEnv) : List ℕ :=
  (List.range sc.requests_count).takeWhile (fun i => !env.latencyStop i)

/-- The `response_times` list of the latency phase
(`src/speedtest_hysteria.py`, lines 171-176): elapsed times in
milliseconds of the attempts that returned a truthy, error-free, valid
response. -/
def latencySamples (sc : SpeedConfig) (env : SpeedEnv) : List ℚ :=
  (((latencyIndices sc env).map env.latencyAttempt).filter
    (fun a => a.gotResponse && !a.error && a.valid)).map (fun a => a.elapsed * 1000)

/-- Shallow embedding of `speed_test_hysteria_key`
(`src/speedtest_hysteria.py`, lines 105-205): returns the optional
`(key, score)` pair — the key passthrough is dropped, only the score is
kept — plus the trace of external effects. Trace facts off the source:
* the write-failure path (lines 132-138) closes the fd and returns the
  port but never unlinks the `mkstemp` file;
* the startup-death path (lines 152-154) calls `return_port` inline before
  the `finally` block (lines 199-205) runs `kill`, `unlink`, `return_port`;
* the port-wait-timeout path (lines 158-159) just returns (no inline
  `return_port`), leaving teardown entirely to the `finally` block. -/
def speed_test_hysteria_key (sc : SpeedConfig) (env : SpeedEnv) :
    Option ℚ × List Event :=
  if !(protocolOk env.parsedProtocol) then
    (none, [])
  else
    match env.takePortResult with
    | none => (none, [Event.takePortNone])
    | some port =>
      let evAcq : List Event := [Event.takePort port, Event.mkstemp]
      if !env.configWriteOk then
        (none, evAcq ++ [Event.returnPort port])
      else
        let evCfg := evAcq ++ [Event.writeConfig]
        if !env.spawnOk then
          (none, evCfg ++ [Event.returnPort port, Event.unlink])
        else
          let evSpawn := evCfg ++ [Event.spawn]
          let evFinally : List Event := [Event.kill, Event.unlink, Event.returnPort port]
          let checks := startupCheckCount sc.HYSTERIA_STARTUP_WAIT sc.HYSTERIA_STARTUP_POLL
          if startupDied env.procDeadAt checks then
            (none, evSpawn ++ [Event.returnPort port] ++ evFinally)
          else if !env.portReady then
            (none, evSpawn ++ [Event.waitPort] ++ evFinally)
          else
            let evReady := evSpawn ++ [Event.waitPort] ++
              probeEvents (latencyIndices sc env).length
            let times := latencySamples sc env
            if times.isEmpty then
              (none, evReady ++ evFinally)
            else
              let avg := times.sum / times.length
              -- the quick and full download branches behave identically on
              -- the shared download oracle, so they are taken together
              let isDownload := (sc.mode == "quick" && sc.download_url_small ≠ "") ||
                (sc.mode == "full" && sc.download_url_medium ≠ "")
              let score : Option ℚ :=
                if isDownload then testDownloadSpeed env.download
                else if sc.mode == "latency" ||
                    !(sc.download_url_small ≠ "" || sc.download_url_medium ≠ "") then
                  if sc.metric == "throughput" then
                    some (if avg > 0 then 100000 / avg else 0)
                  else some avg
                else some avg
              (score,
               evReady ++ (if isDownload then [Event.probe] else []) ++ evFinally)

/-- The latency (in ms) `main` computes for a finished candidate
(`src/hysteria_checker.py`, lines 411-413): mean of `response_times`
times 1000, or 0.0 when no samples were recorded. -/
def mainLatencyMs (m : Metrics) : ℚ :=
  if !m.response_times.isEmpty then
    (m.response_times.sum / m.response_times.length) * 1000
  else 0

/-- Whether `main` appends a finished candidate to `available` (and hence
to the OK running total and both output files):
ok AND average latency in ms at most `MAX_LATENCY_MS`
(`src/hysteria_checker.py`, lines 409-416). -/
def mainIncludes (cfg : Config) (ok : Bool) (m : Metrics) : Bool :=
  ok && decide (mainLatencyMs m ≤ cfg.MAX_LATENCY_MS)

/-- The `available` list `main` builds from the finished candidates'
`(ok, metrics)` results, keeping each candidate's computed latency. -/
def mainAvailable (cfg : Config) (results : List (String × Bool × Metrics)) :
    List (String × ℚ) :=
  (results.filter (fun r => mainIncludes cfg r.2.1 r.2.2)).map
    (fun r => (r.1, mainLatencyMs r.2.2))

/-- The full result file's lines: `available` sorted by latency
(`src/hysteria_checker.py`, lines 427, 443-446), keeping the line text. -/
def mainOutputLines (cfg : Config) (results : List (String × Bool × Metrics)) :
    List String :=
  ((mainAvailable cfg results).mergeSort (fun a b => decide (a.2 ≤ b.2))).map Prod.fst

/-- The top-100 file's lines (`src/hysteria_checker.py`, lines 450-453). -/
def mainTop100 (cfg : Config) (results : List (String × Bool × Metrics)) :
    List String :=
  (mainOutputLines cfg results).take 100

/-- The `results` collection of `speedtest_hysteria.main`
(`src/speedtest_hysteria.py`, lines 282-289): completed futures whose pair
is not `None`. -/
def speedCollect (outs : List (String × Option ℚ)) : List (String × ℚ) :=
  outs.filterMap (fun o => o.2.map (fun s => (o.1, s)))

/-- Modelled from the spec: `lib/port_pool.py` is not among the source
files (only its callers are). Spec §4.1 — the pool is a free set of ports;
`take()` atomically removes and returns one free port, `None` when
exhausted; `return(p)` atomically re-adds `p` and is an idempotent no-op
when `p` is already free. -/
def poolTake (free : Finset ℕ) : Option ℕ × Finset ℕ :=
  if h : free.Nonempty then (some (free.min' h), free.erase (free.min' h))
  else (none, free)

/-- Modelled from the spec: `return(p)` re-adds `p` to the free set
(idempotent). -/
def poolReturn (free : Finset ℕ) (p : ℕ) : Finset ℕ :=
  insert p free

/-- Effect of one traced event on the pool's free set: `takePort p`
removes `p`, `returnPort p` re-adds it, everything else leaves the pool
alone. -/
def poolStep (free : Finset ℕ) : Event → Finset ℕ
  | Event.takePort p => free.erase p
  | Event.returnPort p => poolReturn free p
  | _ => free

/-- Replay of a task's trace against the pool's free set. -/
def poolReplay (free : Finset ℕ) (evs : List Event) : Finset ℕ :=
  evs.foldl poolStep free

/-- Spec-side reading of the strict-protocol success test (spec §4.3):
response received, no transport error, validity check passed, and elapsed
time within `max_ok_time` whenever that cap is positive. Stated as a
`Prop` to be compared with the code-side `isStrictSuccess`. -/
def specStrictSuccess (maxOkTime : ℚ) (a : AttemptResult) : Prop :=
  a.gotResponse = true ∧ a.error = false ∧ a.valid = true ∧
    (maxOkTime > 0 → a.elapsed ≤ maxOkTime)

instance (maxOkTime : ℚ) (a : AttemptResult) :
    Decidable (specStrictSuccess maxOkTime a) := by
  unfold specStrictSuccess
  infer_instance

/-- Termination of a task function: a normal `return`, or an uncaught
exception propagating out of the function to the caller (the scheduler's
`future.result()`). -/
inductive TaskExit (α : Type) where
  | returned (val : α)
  | raised
deriving DecidableEq, Repr

/-- Extension of `Env` with the two effects whose failure the Python code
does NOT handle: `tempfile.mkstemp` (`src/hysteria_checker.py`, line 223,
outside every `try`) raising an `OSError`, and `subprocess.Popen` raising
an exception other than `FileNotFoundError` — `run_hysteria` (lines
163-174) catches only `FileNotFoundError`, so e.g. a `PermissionError`
propagates out of line 231 before the `try`/`finally` is entered.
`mkstempOk` is whether `mkstemp` returned; `spawnRaised` is whether
`Popen` raised such an unhandled exception (only reachable when the
config write succeeded, since the write-failure path returns first). -/
structure EnvX where
  base : Env
  mkstempOk : Bool
  spawnRaised : Bool

/-- Shallow embedding of `check_hysteria_key` including its two
uncaught-exception exits. If `mkstemp` raises, the exception propagates
with only the port taken: no file exists and `return_port` never runs. If
the config was written and `Popen` raises a non-`FileNotFoundError`, the
exception propagates with the port taken and the file written — again no
cleanup, since the `try`/`finally` (lines 240/339) has not been entered.
On every other outcome it coincides with `check_hysteria_key`, whose
environment covers all the handled failure modes. -/
def check_hysteria_key_x (cfg : Config) (ex : EnvX) :
    TaskExit (Bool × Metrics) × List Event :=
  if !(protocolOk ex.base.parsedProtocol) then
    (TaskExit.returned (false, Metrics.init), [])
  else
    match ex.base.takePortResult with
    | none => (TaskExit.returned (false, Metrics.init), [Event.takePortNone])
    | some port =>
      if !ex.mkstempOk then
        (TaskExit.raised, [Event.takePort port])
      else if ex.base.configWriteOk && ex.spawnRaised then
        (TaskExit.raised, [Event.takePort port, Event.mkstemp, Event.writeConfig])
      else
        let r := check_hysteria_key cfg ex.base
        (TaskExit.returned (r.1, r.2.1), r.2.2)

/-- Extension of `SpeedEnv` with the same two unhandled failures
(`src/speedtest_hysteria.py`: `mkstemp` at line 128 outside every `try`;
`run_hysteria` at line 140 re-raising any non-`FileNotFoundError` from
`Popen`). -/
structure SpeedEnvX where
  base : SpeedEnv
  mkstempOk : Bool
  spawnRaised : Bool

/-- Shallow embedding of `speed_test_hysteria_key` including its two
uncaught-exception exits, mirroring `check_hysteria_key_x`: `mkstemp`
raising leaves only the taken port behind; an unhandled `Popen` exception
after the config write leaves the taken port and the written file behind;
otherwise it coincides with `speed_test_hysteria_key`. -/
def speed_test_hysteria_key_x (sc : SpeedConfig) (sx : SpeedEnvX) :
    TaskExit (Option ℚ) × List Event :=
  if !(protocolOk sx.base.parsedProtocol) then
    (TaskExit.returned none, [])
  else
    match sx.base.takePortResult with
    | none => (TaskExit.returned none, [Event.takePortNone])
    | some port =>
      if !sx.mkstempOk then
        (TaskExit.raised, [Event.takePort port])
      else if sx.base.configWriteOk && sx.spawnRaised then
        (TaskExit.raised, [Event.takePort port, Event.mkstemp, Event.writeConfig])
      else
        let r := speed_test_hysteria_key sc sx.base
        (TaskExit.returned r.1, r.2)

/-! ## Concrete fixtures

Configurations and environments used to instantiate the theorems on
concrete inputs. Times are integral wherever possible so that the kernel
can evaluate the rational comparisons. -/

/-- A successful probe attempt: truthy response, no error, valid, 1 s. -/
def aOK : AttemptResult :=
  { gotResponse := true, error := false, valid := true, elapsed := 1 }

/-- A transport-error attempt: no response, error set. -/
def aErr : AttemptResult :=
  { gotResponse := false, error := true, valid := false, elapsed := 0 }

/-- Daily-check-like strict configuration: 3 strict attempts, 5 s response
cap, https required, 2000 ms latency cap, 5 s startup wait polled at 1 s. -/
def cfgBase : Config :=
  { STRONG_STYLE_TEST := true
    STRONG_ATTEMPTS := 3
    STRONG_MAX_RESPONSE_TIME := 5
    MAX_RESPONSE_TIME := 5
    REQUIRE_HTTPS := true
    STRICT_MODE := true
    STRICT_MODE_REQUIRE_ALL := true
    STABILITY_CHECKS := 1
    STABILITY_CHECK_DELAY := 1
    REQUESTS_PER_URL := 1
    MIN_SUCCESSFUL_REQUESTS := 1
    MIN_SUCCESSFUL_URLS := 1
    TEST_URLS := []
    TEST_URLS_HTTPS := []
    CLIENT_TEST_HTTPS := "https://www.gstatic.com/generate_204"
    MAX_LATENCY_MS := 2000
    HYSTERIA_STARTUP_WAIT := 5
    HYSTERIA_STARTUP_POLL := 1 }

/-- Strict configuration with 5 attempts. -/
def cfgStrict5 : Config := { cfgBase with STRONG_ATTEMPTS := 5 }

/-- Stability configuration: strict style off, one round, a single
http-only probe URL, https required. -/
def cfgStab1 : Config :=
  { cfgBase with STRONG_STYLE_TEST := false, TEST_URLS := ["http://u"] }

/-- Same stability configuration with two rounds. -/
def cfgStab2 : Config := { cfgStab1 with STABILITY_CHECKS := 2 }

/-- A fully healthy environment: hysteria2 link, port 1080 allocated,
config written, client spawned and alive, SOCKS ready, every probe
succeeding in 1 s. -/
def envBase : Env :=
  { parsedProtocol := some "hysteria2"
    takePortResult := some 1080
    configWriteOk := true
    spawnOk := true
    procDeadAt := fun _ => false
    portReady := true
    strictAttempt := fun _ => aOK
    stabilityAttempt := fun _ _ _ => aOK }

/-- Exactly two successful strict attempts (indices 0 and 1), the rest
transport errors. -/
def envTwoSuccesses : Env :=
  { envBase with strictAttempt := fun i => if i ≤ 1 then aOK else aErr }

/-- Exactly one successful strict attempt (index 0). -/
def envOneSuccess : Env :=
  { envBase with strictAttempt := fun i => if i = 0 then aOK else aErr }

/-- Spec §8 Scenario B: strict attempts with elapsed times
1.0 s, 1.5 s, transport error. -/
def envScenarioB : Env :=
  { envBase with
      strictAttempt := fun i =>
        if i = 0 then aOK
        else if i = 1 then { aOK with elapsed := 3/2 }
        else aErr }

/-- Client spawns and stays alive but never opens the SOCKS port. -/
def envPortWait : Env := { envBase with portReady := false }

/-- Writing the transient config file fails. -/
def envWriteFail : Env := { envBase with configWriteOk := false }

/-- The port pool is exhausted: `take_port()` returns `None`. -/
def envExhausted : Env := { envBase with takePortResult := none }

/-- The client process is already dead at the first startup poll. -/
def envDead : Env := { envBase with procDeadAt := fun _ => true }

/-- A link that parses but is not a hysteria/hysteria2 link. -/
def envBadProto : Env := { envBase with parsedProtocol := some "vless" }

/-- A link `parse_proxy_url` rejects outright. -/
def envNoParse : Env := { envBase with parsedProtocol := none }

/-- Quick-download speedtest configuration with a small-download URL. -/
def scQuick : SpeedConfig :=
  { metric := "latency"
    requests_count := 1
    mode := "quick"
    download_url_small := "http://dl/small"
    download_url_medium := ""
    HYSTERIA_STARTUP_WAIT := 5
    HYSTERIA_STARTUP_POLL := 1 }

/-- A 200-status download finishing in 0.1 s — under the anti-noise
floor. -/
def dlNoise : DownloadOutcome :=
  { requestError := false, statusCode := 200, downloaded := 1000000, elapsed := 1/10 }

/-- A 200-status download of 1 MB over 2 s. -/
def dlGood : DownloadOutcome :=
  { requestError := false, statusCode := 200, downloaded := 1000000, elapsed := 2 }

/-- Healthy speedtest environment whose download is under the noise
floor. -/
def senvBase : SpeedEnv :=
  { parsedProtocol := some "hysteria2"
    takePortResult := some 2080
    configWriteOk := true
    spawnOk := true
    procDeadAt := fun _ => false
    portReady := true
    latencyStop := fun _ => false
    latencyAttempt := fun _ => aOK
    download := dlNoise }

/-- Same environment with the healthy 2 s download. -/
def senvGood : SpeedEnv := { senvBase with download := dlGood }

/-- Speedtest environment where writing the config file fails. -/
def senvWriteFail : SpeedEnv := { senvBase with configWriteOk := false }

/-- Healthy extended environment: no unhandled exception. -/
def envXBase : EnvX := { base := envBase, mkstempOk := true, spawnRaised := false }

/-- `tempfile.mkstemp` raises after the port was taken. -/
def envXMkstempRaise : EnvX := { base := envBase, mkstempOk := false, spawnRaised := false }

/-- `Popen` raises a non-`FileNotFoundError` after the config was
written. -/
def envXSpawnRaise : EnvX := { base := envBase, mkstempOk := true, spawnRaised := true }

/-- Healthy extended speedtest environment. -/
def senvXBase : SpeedEnvX := { base := senvBase, mkstempOk := true, spawnRaised := false }

/-- Speedtest: `mkstemp` raises after the port was taken. -/
def senvXMkstempRaise : SpeedEnvX :=
  { base := senvBase, mkstempOk := false, spawnRaised := false }

/-- Speedtest: `Popen` raises a non-`FileNotFoundError` after the config
was written. -/
def senvXSpawnRaise : SpeedEnvX :=
  { base := senvBase, mkstempOk := true, spawnRaised := true }

/-- A passing candidate whose single 3 s sample averages to 3000 ms. -/
def mHighLatency : Metrics :=
  { response_times := [3]
    successful_urls := 1
    failed_urls := 0
    total_requests := 3
    successful_requests := 2 }

/-! ## Helper lemmas -/

theorem startupDied_of_never_dead (checks : ℕ) :
    startupDied (fun _ => false) checks = false := by
  simp [startupDied]

theorem startupDied_of_always_dead (checks : ℕ) (h : 0 < checks) :
    startupDied (fun _ => true) checks = true := by
  cases checks with
  | zero => omega
  | succ n => simp [startupDied, List.range_succ]

theorem startupCheckCount_five_one : startupCheckCount 5 1 = 5 := by
  have h : ((5 : ℚ) / 1) = 5 := by norm_num
  simp [startupCheckCount, h]

/-- The code's strict-attempt success test coincides with the spec-side
predicate: response received ∧ no transport error ∧ valid ∧ within
`max_ok_time` whenever that cap is positive. -/
theorem isStrictSuccess_eq_spec (m : ℚ) (a : AttemptResult) :
    isStrictSuccess m a = decide (specStrictSuccess m a) := by
  rcases a with ⟨gr, er, va, el⟩
  cases gr <;> cases er <;> cases va <;>
    simp [isStrictSuccess, specStrictSuccess]
  all_goals by_cases hm : m > 0 <;> by_cases hel : el ≤ m <;>
    simp [hm, hel, not_le, not_lt]
  all_goals exact lt_of_not_le hel

theorem poolReplay_append (free : Finset ℕ) (l₁ l₂ : List Event) :
    poolReplay free (l₁ ++ l₂) = poolReplay (poolReplay free l₁) l₂ := by
  simp [poolReplay, List.foldl_append]

theorem foldl_poolStep_probeEvents (free : Finset ℕ) (n : ℕ) :
    (probeEvents n).foldl poolStep free = free := by
  induction n with
  | zero => simp [probeEvents]
  | succ k ih =>
      simp [probeEvents, List.replicate_succ] at ih ⊢
      simpa [poolStep] using ih

theorem poolReplay_probeEvents (free : Finset ℕ) (n : ℕ) :
    poolReplay free (probeEvents n) = free :=
  foldl_poolStep_probeEvents free n

theorem foldl_poolStep_ite_probe (free : Finset ℕ) (c : Prop) [Decidable c] :
    ((if c then [Event.probe] else []).foldl poolStep free) = free := by
  split <;> simp [poolStep]

/-- Under the hypotheses that let a candidate reach the strict probes —
parse ok, port allocated, config written, client spawned, alive through the
startup wait, SOCKS port ready, strict mode on — `check_hysteria_key` is
the strict-protocol result together with the full trace. -/
theorem check_strict_reach (cfg : Config) (env : Env) (p : ℕ)
    (hproto : protocolOk env.parsedProtocol = true)
    (hport : env.takePortResult = some p)
    (hw : env.configWriteOk = true)
    (hs : env.spawnOk = true)
    (hdead : startupDied env.procDeadAt
      (startupCheckCount cfg.HYSTERIA_STARTUP_WAIT cfg.HYSTERIA_STARTUP_POLL) = false)
    (hready : env.portReady = true)
    (hstrong : cfg.STRONG_STYLE_TEST = true) :
    check_hysteria_key cfg env =
      ((strictResult cfg env).1, (strictResult cfg env).2,
        [Event.takePort p, Event.mkstemp, Event.writeConfig, Event.spawn, Event.waitPort] ++
          probeEvents (strictAttemptsTotal cfg) ++
          [Event.kill, Event.unlink, Event.returnPort p]) := by
  simp [check_hysteria_key, hproto, hport, hw, hs, hdead, hready, hstrong]

/-- Same reach lemma for the stability protocol (strict mode off). -/
theorem check_stability_reach (cfg : Config) (env : Env) (p : ℕ)
    (hproto : protocolOk env.parsedProtocol = true)
    (hport : env.takePortResult = some p)
    (hw : env.configWriteOk = true)
    (hs : env.spawnOk = true)
    (hdead : startupDied env.procDeadAt
      (startupCheckCount cfg.HYSTERIA_STARTUP_WAIT cfg.HYSTERIA_STARTUP_POLL) = false)
    (hready : env.portReady = true)
    (hstrong : cfg.STRONG_STYLE_TEST = false) :
    check_hysteria_key cfg env =
      ((stabilityResult cfg env).1, (stabilityResult cfg env).2,
        [Event.takePort p, Event.mkstemp, Event.writeConfig, Event.spawn, Event.waitPort] ++
          probeEvents (stabilityProbeCount cfg) ++
          [Event.kill, Event.unlink, Event.returnPort p]) := by
  simp [check_hysteria_key, hproto, hport, hw, hs, hdead, hready, hstrong]

/-! ## Claim theorems -/

/-- C10: for every input link that does not parse (falsy parse result) or
whose parsed protocol is neither "hysteria" nor "hysteria2",
`check_hysteria_key` returns `(link, False, metrics)` with the all-zero
metrics, performs no external effect at all — in particular it never calls
`take_port`, never creates a config file and never spawns a process — and
leaves any port-pool free set unchanged. -/
theorem C10_unparsable_link_frame (cfg : Config) (env : Env) (free : Finset ℕ)
    (h : env.parsedProtocol = none ∨
      ∀ s, env.parsedProtocol = some s → s ≠ "hysteria" ∧ s ≠ "hysteria2") :
    check_hysteria_key cfg env = (false, Metrics.init, []) ∧
    poolReplay free (check_hysteria_key cfg env).2.2 = free := by
  have hp : protocolOk env.parsedProtocol = false := by
    rcases h with h | h
    · simp [protocolOk, h]
    · cases henv : env.parsedProtocol with
      | none => simp [protocolOk]
      | some s =>
          rcases h s henv with ⟨h1, h2⟩
          simp [protocolOk, h1, h2]
  have heq : check_hysteria_key cfg env = (false, Metrics.init, []) := by
    simp [check_hysteria_key, hp]
  exact ⟨heq, by simp [heq, poolReplay]⟩

/-- Witness for C10 at two concrete inputs: an unparsable link and a
parsed non-hysteria (vless) link. -/
theorem C10_unparsable_link_frame_witness :
    check_hysteria_key cfgBase envNoParse = (false, Metrics.init, []) ∧
    check_hysteria_key cfgBase envBadProto = (false, Metrics.init, []) := by
  refine ⟨(C10_unparsable_link_frame cfgBase envNoParse ∅ (Or.inl rfl)).1,
          (C10_unparsable_link_frame cfgBase envBadProto ∅ (Or.inr ?_)).1⟩
  intro s hs
  simp only [envBadProto, envBase, Option.some.injEq] at hs
  subst hs
  exact ⟨by decide, by decide⟩

/-- C6: when `take_port()` returns `None`, `check_hysteria_key`
immediately returns `(link, False, metrics)` with the all-zero metrics;
the trace shows a single allocation attempt and nothing else — no config
file written, no process spawned, no exception raised. -/
theorem C6_pool_exhausted_normal_failure (cfg : Config) (env : Env)
    (hproto : protocolOk env.parsedProtocol = true)
    (hnone : env.takePortResult = none) :
    check_hysteria_key cfg env = (false, Metrics.init, [Event.takePortNone]) ∧
    Event.mkstemp ∉ (check_hysteria_key cfg env).2.2 ∧
    Event.writeConfig ∉ (check_hysteria_key cfg env).2.2 ∧
    Event.spawn ∉ (check_hysteria_key cfg env).2.2 := by
  have heq : check_hysteria_key cfg env = (false, Metrics.init, [Event.takePortNone]) := by
    simp [check_hysteria_key, hproto, hnone]
  exact ⟨heq, by simp [heq], by simp [heq], by simp [heq]⟩

/-- Witness for C6 at a concrete exhausted-pool environment. -/
theorem C6_pool_exhausted_normal_failure_witness :
    check_hysteria_key cfgBase envExhausted = (false, Metrics.init, [Event.takePortNone]) := by
  exact (C6_pool_exhausted_normal_failure cfgBase envExhausted (by decide) rfl).1

/-- C7: if the spawned process exits at one of the fixed-interval liveness
checks before the `HYSTERIA_STARTUP_WAIT` budget elapses, the candidate
fails immediately with the all-zero metrics, and the trace contains no TCP
port-readiness wait and no probe. -/
theorem C7_startup_death_fails_immediately (cfg : Config) (env : Env) (p : ℕ)
    (hproto : protocolOk env.parsedProtocol = true)
    (hport : env.takePortResult = some p)
    (hw : env.configWriteOk = true)
    (hs : env.spawnOk = true)
    (hdead : startupDied env.procDeadAt
      (startupCheckCount cfg.HYSTERIA_STARTUP_WAIT cfg.HYSTERIA_STARTUP_POLL) = true) :
    (check_hysteria_key cfg env).1 = false ∧
    (check_hysteria_key cfg env).2.1 = Metrics.init ∧
    Event.waitPort ∉ (check_hysteria_key cfg env).2.2 ∧
    Event.probe ∉ (check_hysteria_key cfg env).2.2 := by
  have heq : check_hysteria_key cfg env = (false, Metrics.init,
      [Event.takePort p, Event.mkstemp, Event.writeConfig, Event.spawn,
       Event.returnPort p, Event.kill, Event.unlink, Event.returnPort p]) := by
    simp [check_hysteria_key, hproto, hport, hw, hs, hdead]
  exact ⟨by simp [heq], by simp [heq], by simp [heq], by simp [heq]⟩

/-- Witness for C7: the client is dead at the very first liveness poll of
a 5 s startup wait polled every 1 s. -/
theorem C7_startup_death_fails_immediately_witness :
    (check_hysteria_key cfgBase envDead).1 = false ∧
    Event.waitPort ∉ (check_hysteria_key cfgBase envDead).2.2 ∧
    Event.probe ∉ (check_hysteria_key cfgBase envDead).2.2 := by
  have h := C7_startup_death_fails_immediately cfgBase envDead 1080
    (by decide) rfl rfl rfl
    (by
      have hc : startupCheckCount cfgBase.HYSTERIA_STARTUP_WAIT
          cfgBase.HYSTERIA_STARTUP_POLL = 5 := startupCheckCount_five_one
      rw [show envDead.procDeadAt = fun _ => true from rfl, hc]
      exact startupDied_of_always_dead 5 (by omega))
  exact ⟨h.1, h.2.2.1, h.2.2.2⟩

/-- C3: in the strict protocol, for any configuration (hence any
`attempts_total = max 2 STRONG_ATTEMPTS ≥ 2`), a candidate that reaches
the probes passes iff the number of successful attempts is at least 2 —
independent of the total number of attempts. -/
theorem C3_strict_pass_iff_two_successes (cfg : Config) (env : Env) (p : ℕ)
    (hproto : protocolOk env.parsedProtocol = true)
    (hport : env.takePortResult = some p)
    (hw : env.configWriteOk = true)
    (hs : env.spawnOk = true)
    (hdead : startupDied env.procDeadAt
      (startupCheckCount cfg.HYSTERIA_STARTUP_WAIT cfg.HYSTERIA_STARTUP_POLL) = false)
    (hready : env.portReady = true)
    (hstrong : cfg.STRONG_STYLE_TEST = true) :
    (check_hysteria_key cfg env).1 = decide (2 ≤ strictSuccessCount cfg env) := by
  rw [check_strict_reach cfg env p hproto hport hw hs hdead hready hstrong]
  by_cases h2 : 2 ≤ strictSuccessCount cfg env <;> simp [strictResult, h2]

/-- Witness for C3: with `attempts_total = 3` and with `attempts_total = 5`,
exactly 2 successes pass the candidate and 1 success fails it. -/
theorem C3_strict_pass_iff_two_successes_witness :
    (check_hysteria_key cfgBase envTwoSuccesses).1 = true ∧
    (check_hysteria_key cfgBase envOneSuccess).1 = false ∧
    (check_hysteria_key cfgStrict5 envTwoSuccesses).1 = true ∧
    (check_hysteria_key cfgStrict5 envOneSuccess).1 = false := by
  have hd : ∀ env : Env, env.procDeadAt = (fun _ => false) →
      ∀ w po, startupDied env.procDeadAt (startupCheckCount w po) = false := by
    intro env h w po
    rw [h]
    exact startupDied_of_never_dead _
  refine ⟨?_, ?_, ?_, ?_⟩
  · rw [C3_strict_pass_iff_two_successes cfgBase envTwoSuccesses 1080
      (by decide) rfl rfl rfl (hd _ rfl _ _) rfl rfl]
    decide
  · rw [C3_strict_pass_iff_two_successes cfgBase envOneSuccess 1080
      (by decide) rfl rfl rfl (hd _ rfl _ _) rfl rfl]
    decide
  · rw [C3_strict_pass_iff_two_successes cfgStrict5 envTwoSuccesses 1080
      (by decide) rfl rfl rfl (hd _ rfl _ _) rfl rfl]
    decide
  · rw [C3_strict_pass_iff_two_successes cfgStrict5 envOneSuccess 1080
      (by decide) rfl rfl rfl (hd _ rfl _ _) rfl rfl]
    decide

/-- C4: in the strict protocol, an attempt counts as a success exactly
when a response was received with no transport error, the validity check
passed, and — whenever the cap is positive — the elapsed time is within
`max_ok_time`; the recorded `response_times` are exactly the elapsed times
of the successful attempts, and the candidate passes iff at least two
attempts satisfy that success predicate. -/
theorem C4_strict_success_criteria_and_samples (cfg : Config) (env : Env) (p : ℕ)
    (hproto : protocolOk env.parsedProtocol = true)
    (hport : env.takePortResult = some p)
    (hw : env.configWriteOk = true)
    (hs : env.spawnOk = true)
    (hdead : startupDied env.procDeadAt
      (startupCheckCount cfg.HYSTERIA_STARTUP_WAIT cfg.HYSTERIA_STARTUP_POLL) = false)
    (hready : env.portReady = true)
    (hstrong : cfg.STRONG_STYLE_TEST = true) :
    (check_hysteria_key cfg env).2.1.response_times =
      ((strictAttemptList cfg env).filter
        (fun a => decide (specStrictSuccess (strictMaxOkTime cfg) a))).map
        (fun a => a.elapsed) ∧
    (check_hysteria_key cfg env).1 =
      decide (2 ≤ ((strictAttemptList cfg env).filter
        (fun a => decide (specStrictSuccess (strictMaxOkTime cfg) a))).length) := by
  have hfilter : (strictAttemptList cfg env).filter
      (fun a => decide (specStrictSuccess (strictMaxOkTime cfg) a)) =
      (strictAttemptList cfg env).filter (isStrictSuccess (strictMaxOkTime cfg)) := by
    apply List.filter_congr
    intro a _
    exact (isStrictSuccess_eq_spec _ a).symm
  rw [check_strict_reach cfg env p hproto hport hw hs hdead hready hstrong, hfilter]
  constructor
  · by_cases h2 : 2 ≤ strictSuccessCount cfg env <;>
      simp [strictResult, h2, strictSamples]
  · by_cases h2 : 2 ≤ strictSuccessCount cfg env <;>
      · simp only [strictSuccessCount] at h2
        simp [strictResult, strictSuccessCount, h2]

/-- Witness for C4 at Scenario B: 3 strict attempts with elapsed times
1.0 s, 1.5 s and a transport error under `max_ok_time = 5 s` yield a pass
with samples `[1.0, 1.5]` whose average is 1.25 s. -/
theorem C4_strict_success_criteria_and_samples_witness :
    (check_hysteria_key cfgBase envScenarioB).2.1.response_times = [1, 3/2] ∧
    (check_hysteria_key cfgBase envScenarioB).1 = true ∧
    (check_hysteria_key cfgBase envScenarioB).2.1.response_times.sum /
      (check_hysteria_key cfgBase envScenarioB).2.1.response_times.length = 5/4 := by
  have h := C4_strict_success_criteria_and_samples cfgBase envScenarioB 1080
    (by decide) rfl rfl rfl
    (by rw [show envScenarioB.procDeadAt = fun _ => false from rfl]
        exact startupDied_of_never_dead _)
    rfl rfl
  have hlist : (strictAttemptList cfgBase envScenarioB).filter
      (fun a => decide (specStrictSuccess (strictMaxOkTime cfgBase) a)) =
      [aOK, { aOK with elapsed := 3/2 }] := by
    have hm : strictMaxOkTime cfgBase = 5 := by
      simp [strictMaxOkTime, cfgBase]
    rw [hm]
    simp only [strictAttemptList, strictAttemptsTotal, cfgBase, envScenarioB, envBase]
    norm_num [List.range_succ, specStrictSuccess, aOK, aErr]
  have h1 : (check_hysteria_key cfgBase envScenarioB).2.1.response_times = [1, 3/2] := by
    rw [h.1, hlist]
    simp [aOK]
  refine ⟨h1, ?_, ?_⟩
  · rw [h.2, hlist]
    decide
  · rw [h1]
    norm_num

/-- Counterexample to C2: stability protocol, `STABILITY_CHECKS = 1`,
`REQUIRE_HTTPS` set, a single http-only probe URL (so the URL list has no
https tag), every request succeeding. The single round is forcibly failed
— `stability_results = [False]` — yet `check_hysteria_key` returns
`ok = True`, because the single-round case recomputes availability from
the last round's URL-success count without the https condition. -/
theorem C2_single_round_forced_fail_still_passes :
    cfgStab1.STRONG_STYLE_TEST = false ∧
    cfgStab1.STABILITY_CHECKS = 1 ∧
    cfgStab1.REQUIRE_HTTPS = true ∧
    (allUrls cfgStab1).any (fun ut => ut.2 == "https") = false ∧
    stabilityRoundResults cfgStab1 envBase = [false] ∧
    (check_hysteria_key cfgStab1 envBase).1 = true := by
  refine ⟨rfl, rfl, rfl, by decide, ?_, ?_⟩
  · simp [stabilityRoundResults, cfgStab1, cfgBase, roundPassed, roundUrlSuccessCount,
      allUrls, isStabilitySuccess, envBase, aOK, List.range_succ]
  · simp [check_hysteria_key, protocolOk, envBase, startupDied_of_never_dead,
      cfgStab1, cfgBase, stabilityResult, stabilityRoundResults, roundPassed,
      roundUrlSuccessCount, allUrls, isStabilitySuccess, aOK, stabilitySamples,
      stabilityProbeCount, List.range_succ]

/-- C2 as amended: with `REQUIRE_HTTPS` set and no https-tagged URL in the
probe list, every round is forcibly failed; when more than one round is
configured the candidate therefore fails, but in the single-round case the
final availability is recomputed from the last round's URL-success count
(where the https condition only fires on an empty URL list, which the
fallback makes impossible), so the forced round failure does not by itself
fail the candidate. -/
theorem C2_stability_rounds_amended (cfg : Config) (env : Env) (p : ℕ)
    (hstrong : cfg.STRONG_STYLE_TEST = false)
    (hhttps : cfg.REQUIRE_HTTPS = true)
    (hnoh : (allUrls cfg).any (fun ut => ut.2 == "https") = false)
    (hproto : protocolOk env.parsedProtocol = true)
    (hport : env.takePortResult = some p)
    (hw : env.configWriteOk = true)
    (hs : env.spawnOk = true)
    (hdead : startupDied env.procDeadAt
      (startupCheckCount cfg.HYSTERIA_STARTUP_WAIT cfg.HYSTERIA_STARTUP_POLL) = false)
    (hready : env.portReady = true) :
    (∀ r, roundPassed cfg env r = false) ∧
    (1 < cfg.STABILITY_CHECKS → (check_hysteria_key cfg env).1 = false) := by
  have hall : ∀ r, roundPassed cfg env r = false := by
    intro r
    simp [roundPassed, hhttps, hnoh]
  refine ⟨hall, ?_⟩
  intro hgt
  rw [check_stability_reach cfg env p hproto hport hw hs hdead hready hstrong]
  have hresults : (stabilityRoundResults cfg env).all id = false := by
    rw [List.all_eq_false]
    exact ⟨false, by
      simp only [stabilityRoundResults, List.mem_map]
      exact ⟨0, List.mem_range.mpr (by omega), hall 0⟩, by simp⟩
  simp [stabilityResult, hresults, hgt]

/-- Witness for the amended C2: two rounds, https required, http-only
URL list, all requests succeeding — round 0 is forcibly failed and the
candidate fails. -/
theorem C2_stability_rounds_amended_witness :
    roundPassed cfgStab2 envBase 0 = false ∧
    (check_hysteria_key cfgStab2 envBase).1 = false := by
  have h := C2_stability_rounds_amended cfgStab2 envBase 1080
    rfl rfl (by decide) (by decide) rfl rfl rfl
    (by rw [show envBase.procDeadAt = fun _ => false from rfl]
        exact startupDied_of_never_dead _)
    rfl
  exact ⟨h.1 0, h.2 (by decide)⟩

/-- Evaluation of the C1 failing input: a candidate whose client spawns,
survives the startup wait, but never opens the SOCKS port. On this
port-wait-timeout path `check_hysteria_key` calls `return_port` (line 250)
BEFORE the `finally` block runs `kill_hysteria`: the trace contains a
`returnPort` strictly before the first `kill`, i.e. the port is handed
back to the pool while the client process is still alive. -/
theorem C1_port_wait_timeout_returns_port_before_kill :
    (check_hysteria_key cfgBase envPortWait).1 = false ∧
    (check_hysteria_key cfgBase envPortWait).2.2 =
      [Event.takePort 1080, Event.mkstemp, Event.writeConfig, Event.spawn,
       Event.waitPort, Event.returnPort 1080, Event.kill, Event.unlink,
       Event.returnPort 1080] ∧
    Event.returnPort 1080 ∈
      ((check_hysteria_key cfgBase envPortWait).2.2.takeWhile
        (fun e => !(e == Event.kill))) := by
  have heq : (check_hysteria_key cfgBase envPortWait).2.2 =
      [Event.takePort 1080, Event.mkstemp, Event.writeConfig, Event.spawn,
       Event.waitPort, Event.returnPort 1080, Event.kill, Event.unlink,
       Event.returnPort 1080] := by
    simp [check_hysteria_key, protocolOk, envPortWait, envBase,
      startupDied_of_never_dead]
  refine ⟨?_, heq, ?_⟩
  · simp [check_hysteria_key, protocolOk, envPortWait, envBase,
      startupDied_of_never_dead]
  · rw [heq]
    decide

/-- On every path of `check_hysteria_key` on which the port was acquired,
the trace returns the port, replaying it against any free set containing
the port restores that set, and — whenever the config write succeeded —
the transient file is unlinked. -/
theorem check_trace_release (cfg : Config) (env : Env) (free : Finset ℕ) (p : ℕ)
    (hproto : protocolOk env.parsedProtocol = true)
    (hport : env.takePortResult = some p)
    (hpf : p ∈ free) :
    Event.returnPort p ∈ (check_hysteria_key cfg env).2.2 ∧
    poolReplay free (check_hysteria_key cfg env).2.2 = free ∧
    (env.configWriteOk = true → Event.unlink ∈ (check_hysteria_key cfg env).2.2) := by
  cases hcw : env.configWriteOk <;>
  cases hsp : env.spawnOk <;>
  cases hd : startupDied env.procDeadAt
    (startupCheckCount cfg.HYSTERIA_STARTUP_WAIT cfg.HYSTERIA_STARTUP_POLL) <;>
  cases hr : env.portReady <;>
  cases hst : cfg.STRONG_STYLE_TEST <;>
  simp [check_hysteria_key, hproto, hport, hcw, hsp, hd, hr, hst,
    poolReplay_append, foldl_poolStep_probeEvents, poolReplay, poolStep, poolReturn,
    Finset.insert_erase hpf, Finset.insert_eq_self.mpr hpf]

/-- Same release facts for `speed_test_hysteria_key`. -/
theorem speed_trace_release (sc : SpeedConfig) (senv : SpeedEnv)
    (free : Finset ℕ) (q : ℕ)
    (hproto : protocolOk senv.parsedProtocol = true)
    (hport : senv.takePortResult = some q)
    (hqf : q ∈ free) :
    Event.returnPort q ∈ (speed_test_hysteria_key sc senv).2 ∧
    poolReplay free (speed_test_hysteria_key sc senv).2 = free ∧
    (senv.configWriteOk = true → Event.unlink ∈ (speed_test_hysteria_key sc senv).2) := by
  cases hcw : senv.configWriteOk <;>
  cases hsp : senv.spawnOk <;>
  cases hd : startupDied senv.procDeadAt
    (startupCheckCount sc.HYSTERIA_STARTUP_WAIT sc.HYSTERIA_STARTUP_POLL) <;>
  cases hr : senv.portReady <;>
  cases he : (latencySamples sc senv).isEmpty <;>
  simp [speed_test_hysteria_key, hproto, hport, hcw, hsp, hd, hr, he,
    poolReplay_append, foldl_poolStep_probeEvents, foldl_poolStep_ite_probe,
    poolReplay, poolStep, poolReturn,
    Finset.insert_erase hqf, Finset.insert_eq_self.mpr hqf]

/-- Counterexample to C5, covering all three leaking termination paths:
(a) when writing the transient config file fails, both task functions
return the port but never delete the file `mkstemp` created; (b) when
`mkstemp` itself raises, the exception propagates and `return_port` is
never called — the pool permanently loses the port; (c) when `Popen`
raises a non-`FileNotFoundError` after the config was written, the
exception propagates with neither `return_port` nor `unlink`, leaking
both the port and the written config file. -/
theorem C5_resource_leak_counterexample :
    ((check_hysteria_key cfgBase envWriteFail).2.2 =
       [Event.takePort 1080, Event.mkstemp, Event.returnPort 1080] ∧
     Event.unlink ∉ (check_hysteria_key cfgBase envWriteFail).2.2 ∧
     (speed_test_hysteria_key scQuick senvWriteFail).2 =
       [Event.takePort 2080, Event.mkstemp, Event.returnPort 2080] ∧
     Event.unlink ∉ (speed_test_hysteria_key scQuick senvWriteFail).2) ∧
    (check_hysteria_key_x cfgBase envXMkstempRaise =
       (TaskExit.raised, [Event.takePort 1080]) ∧
     Event.returnPort 1080 ∉ (check_hysteria_key_x cfgBase envXMkstempRaise).2 ∧
     speed_test_hysteria_key_x scQuick senvXMkstempRaise =
       (TaskExit.raised, [Event.takePort 2080])) ∧
    (check_hysteria_key_x cfgBase envXSpawnRaise =
       (TaskExit.raised, [Event.takePort 1080, Event.mkstemp, Event.writeConfig]) ∧
     Event.returnPort 1080 ∉ (check_hysteria_key_x cfgBase envXSpawnRaise).2 ∧
     Event.unlink ∉ (check_hysteria_key_x cfgBase envXSpawnRaise).2 ∧
     speed_test_hysteria_key_x scQuick senvXSpawnRaise =
       (TaskExit.raised, [Event.takePort 2080, Event.mkstemp, Event.writeConfig]) ∧
     Event.returnPort 2080 ∉ (speed_test_hysteria_key_x scQuick senvXSpawnRaise).2) := by
  have h1 : (check_hysteria_key cfgBase envWriteFail).2.2 =
      [Event.takePort 1080, Event.mkstemp, Event.returnPort 1080] := by
    simp [check_hysteria_key, protocolOk, envWriteFail, envBase]
  have h2 : (speed_test_hysteria_key scQuick senvWriteFail).2 =
      [Event.takePort 2080, Event.mkstemp, Event.returnPort 2080] := by
    simp [speed_test_hysteria_key, protocolOk, senvWriteFail, senvBase]
  have h3 : check_hysteria_key_x cfgBase envXMkstempRaise =
      (TaskExit.raised, [Event.takePort 1080]) := by
    simp [check_hysteria_key_x, protocolOk, envXMkstempRaise, envBase]
  have h4 : speed_test_hysteria_key_x scQuick senvXMkstempRaise =
      (TaskExit.raised, [Event.takePort 2080]) := by
    simp [speed_test_hysteria_key_x, protocolOk, senvXMkstempRaise, senvBase]
  have h5 : check_hysteria_key_x cfgBase envXSpawnRaise =
      (TaskExit.raised, [Event.takePort 1080, Event.mkstemp, Event.writeConfig]) := by
    simp [check_hysteria_key_x, protocolOk, envXSpawnRaise, envBase]
  have h6 : speed_test_hysteria_key_x scQuick senvXSpawnRaise =
      (TaskExit.raised, [Event.takePort 2080, Event.mkstemp, Event.writeConfig]) := by
    simp [speed_test_hysteria_key_x, protocolOk, senvXSpawnRaise, senvBase]
  exact ⟨⟨h1, by simp [h1], h2, by simp [h2]⟩,
         ⟨h3, by simp [h3], h4⟩,
         ⟨h5, by simp [h5], by simp [h5], h6, by simp [h6]⟩⟩

/-- C5 as amended: for every task that acquires a port, on every
termination path on which `mkstemp` succeeds and `Popen` does not raise
an unhandled exception, `return_port` is called for that port (replay
restores the pool's free set) and the transient config file is deleted
except when the config write failed; on the two uncaught-exception paths
— `mkstemp` raising, or an unhandled `Popen` exception after the config
was written — the exception propagates, `return_port` is never called,
no `unlink` happens, and replaying the trace leaves the pool's free set
permanently missing the port. -/
theorem C5_release_amended (cfg : Config) (sc : SpeedConfig)
    (ex : EnvX) (sx : SpeedEnvX) (free : Finset ℕ) (p q : ℕ)
    (hproto : protocolOk ex.base.parsedProtocol = true)
    (hport : ex.base.takePortResult = some p)
    (hpf : p ∈ free)
    (hsproto : protocolOk sx.base.parsedProtocol = true)
    (hsport : sx.base.takePortResult = some q)
    (hqf : q ∈ free) :
    ((ex.mkstempOk = true ∧ (ex.base.configWriteOk = true → ex.spawnRaised = false)) →
      Event.returnPort p ∈ (check_hysteria_key_x cfg ex).2 ∧
      poolReplay free (check_hysteria_key_x cfg ex).2 = free ∧
      (ex.base.configWriteOk = true → Event.unlink ∈ (check_hysteria_key_x cfg ex).2)) ∧
    ((ex.mkstempOk = false ∨ (ex.base.configWriteOk = true ∧ ex.spawnRaised = true)) →
      (check_hysteria_key_x cfg ex).1 = TaskExit.raised ∧
      Event.returnPort p ∉ (check_hysteria_key_x cfg ex).2 ∧
      Event.unlink ∉ (check_hysteria_key_x cfg ex).2 ∧
      poolReplay free (check_hysteria_key_x cfg ex).2 = free.erase p) ∧
    ((sx.mkstempOk = true ∧ (sx.base.configWriteOk = true → sx.spawnRaised = false)) →
      Event.returnPort q ∈ (speed_test_hysteria_key_x sc sx).2 ∧
      poolReplay free (speed_test_hysteria_key_x sc sx).2 = free ∧
      (sx.base.configWriteOk = true → Event.unlink ∈ (speed_test_hysteria_key_x sc sx).2)) ∧
    ((sx.mkstempOk = false ∨ (sx.base.configWriteOk = true ∧ sx.spawnRaised = true)) →
      (speed_test_hysteria_key_x sc sx).1 = TaskExit.raised ∧
      Event.returnPort q ∉ (speed_test_hysteria_key_x sc sx).2 ∧
      Event.unlink ∉ (speed_test_hysteria_key_x sc sx).2 ∧
      poolReplay free (speed_test_hysteria_key_x sc sx).2 = free.erase q) := by
  refine ⟨?_, ?_, ?_, ?_⟩
  · rintro ⟨hmk, himp⟩
    have hcond : (ex.base.configWriteOk && ex.spawnRaised) = false := by
      cases hcw : ex.base.configWriteOk
      · simp
      · simp [himp hcw]
    have hx : check_hysteria_key_x cfg ex =
        (TaskExit.returned ((check_hysteria_key cfg ex.base).1,
          (check_hysteria_key cfg ex.base).2.1), (check_hysteria_key cfg ex.base).2.2) := by
      simp [check_hysteria_key_x, hproto, hport, hmk, hcond]
    rw [hx]
    exact check_trace_release cfg ex.base free p hproto hport hpf
  · intro hor
    have hx : check_hysteria_key_x cfg ex = (TaskExit.raised, [Event.takePort p]) ∨
        check_hysteria_key_x cfg ex =
          (TaskExit.raised, [Event.takePort p, Event.mkstemp, Event.writeConfig]) := by
      rcases hor with hmk | ⟨hcw, hsr⟩
      · exact Or.inl (by simp [check_hysteria_key_x, hproto, hport, hmk])
      · cases hmk : ex.mkstempOk
        · exact Or.inl (by simp [check_hysteria_key_x, hproto, hport, hmk])
        · exact Or.inr (by simp [check_hysteria_key_x, hproto, hport, hmk, hcw, hsr])
    rcases hx with hx | hx <;>
      simp [hx, poolReplay, poolStep]
  · rintro ⟨hmk, himp⟩
    have hcond : (sx.base.configWriteOk && sx.spawnRaised) = false := by
      cases hcw : sx.base.configWriteOk
      · simp
      · simp [himp hcw]
    have hx : speed_test_hysteria_key_x sc sx =
        (TaskExit.returned (speed_test_hysteria_key sc sx.base).1,
          (speed_test_hysteria_key sc sx.base).2) := by
      simp [speed_test_hysteria_key_x, hsproto, hsport, hmk, hcond]
    rw [hx]
    exact speed_trace_release sc sx.base free q hsproto hsport hqf
  · intro hor
    have hx : speed_test_hysteria_key_x sc sx = (TaskExit.raised, [Event.takePort q]) ∨
        speed_test_hysteria_key_x sc sx =
          (TaskExit.raised, [Event.takePort q, Event.mkstemp, Event.writeConfig]) := by
      rcases hor with hmk | ⟨hcw, hsr⟩
      · exact Or.inl (by simp [speed_test_hysteria_key_x, hsproto, hsport, hmk])
      · cases hmk : sx.mkstempOk
        · exact Or.inl (by simp [speed_test_hysteria_key_x, hsproto, hsport, hmk])
        · exact Or.inr (by simp [speed_test_hysteria_key_x, hsproto, hsport, hmk, hcw, hsr])
    rcases hx with hx | hx <;>
      simp [hx, poolReplay, poolStep]

/-- Witness for the amended C5: a healthy environment releases port and
file for both functions; the `mkstemp`-raise environment terminates by
exception with the port never returned. -/
theorem C5_release_amended_witness :
    Event.returnPort 1080 ∈ (check_hysteria_key_x cfgBase envXBase).2 ∧
    poolReplay {1080, 2080} (check_hysteria_key_x cfgBase envXBase).2 = {1080, 2080} ∧
    Event.unlink ∈ (check_hysteria_key_x cfgBase envXBase).2 ∧
    Event.returnPort 2080 ∈ (speed_test_hysteria_key_x scQuick senvXBase).2 ∧
    Event.unlink ∈ (speed_test_hysteria_key_x scQuick senvXBase).2 ∧
    (check_hysteria_key_x cfgBase envXMkstempRaise).1 = TaskExit.raised ∧
    Event.returnPort 1080 ∉ (check_hysteria_key_x cfgBase envXMkstempRaise).2 := by
  have h := C5_release_amended cfgBase scQuick envXBase senvXBase {1080, 2080} 1080 2080
    (by decide) rfl (by decide) (by decide) rfl (by decide)
  have ha := h.1 ⟨rfl, fun _ => rfl⟩
  have hs := h.2.2.1 ⟨rfl, fun _ => rfl⟩
  have h2 := C5_release_amended cfgBase scQuick envXMkstempRaise senvXBase
    {1080, 2080} 1080 2080 (by decide) rfl (by decide) (by decide) rfl (by decide)
  have hb := h2.2.1 (Or.inl rfl)
  exact ⟨ha.1, ha.2.1, ha.2.2 rfl, hs.1, hs.2.2 rfl, hb.1, hb.2.1⟩

/-- In quick (or full) download mode with the corresponding URL set, a
candidate that reaches the download phase gets exactly the download
score. -/
theorem speed_download_reach (sc : SpeedConfig) (senv : SpeedEnv) (q : ℕ)
    (hproto : protocolOk senv.parsedProtocol = true)
    (hport : senv.takePortResult = some q)
    (hw : senv.configWriteOk = true)
    (hs : senv.spawnOk = true)
    (hdead : startupDied senv.procDeadAt
      (startupCheckCount sc.HYSTERIA_STARTUP_WAIT sc.HYSTERIA_STARTUP_POLL) = false)
    (hready : senv.portReady = true)
    (hlat : (latencySamples sc senv).isEmpty = false)
    (hdl : (sc.mode = "quick" ∧ sc.download_url_small ≠ "") ∨
      (sc.mode = "full" ∧ sc.download_url_medium ≠ "")) :
    (speed_test_hysteria_key sc senv).1 = testDownloadSpeed senv.download := by
  rcases hdl with ⟨hm, hu⟩ | ⟨hm, hu⟩ <;>
    simp [speed_test_hysteria_key, hproto, hport, hw, hs, hdead, hready, hlat, hm, hu]

/-- C8: in quick/full download mode, a download whose total elapsed time
is under the 0.3 s anti-noise floor yields no score — the task returns
`None` and contributes nothing to the collected results — while otherwise
(no transport error, status 200) the score is bits transferred divided by
elapsed seconds in Mbps (rounded to two decimals). -/
theorem C8_download_noise_floor (sc : SpeedConfig) (senv : SpeedEnv) (q : ℕ)
    (hproto : protocolOk senv.parsedProtocol = true)
    (hport : senv.takePortResult = some q)
    (hw : senv.configWriteOk = true)
    (hs : senv.spawnOk = true)
    (hdead : startupDied senv.procDeadAt
      (startupCheckCount sc.HYSTERIA_STARTUP_WAIT sc.HYSTERIA_STARTUP_POLL) = false)
    (hready : senv.portReady = true)
    (hlat : (latencySamples sc senv).isEmpty = false)
    (hdl : (sc.mode = "quick" ∧ sc.download_url_small ≠ "") ∨
      (sc.mode = "full" ∧ sc.download_url_medium ≠ "")) :
    (senv.download.elapsed < 3/10 →
      (speed_test_hysteria_key sc senv).1 = none ∧
      ∀ (name : String) (outs : List (String × Option ℚ)),
        speedCollect ((name, (speed_test_hysteria_key sc senv).1) :: outs) =
          speedCollect outs) ∧
    (¬ senv.download.elapsed < 3/10 →
      senv.download.requestError = false →
      senv.download.statusCode = 200 →
      (speed_test_hysteria_key sc senv).1 =
        some (pyRound2 ((senv.download.downloaded * 8 : ℚ) /
          (senv.download.elapsed * 1000000)))) := by
  have hscore := speed_download_reach sc senv q hproto hport hw hs hdead hready hlat hdl
  constructor
  · intro hfloor
    have hnone : (speed_test_hysteria_key sc senv).1 = none := by
      rw [hscore]
      cases herr : senv.download.requestError <;>
        by_cases hst : senv.download.statusCode = 200 <;>
          simp [testDownloadSpeed, herr, hst, hfloor]
    exact ⟨hnone, fun name outs => by simp [speedCollect, hnone]⟩
  · intro hfloor herr hst
    rw [hscore]
    simp [testDownloadSpeed, herr, hst, hfloor]

/-- Witness for C8: a 0.1 s download yields no score and no collected
entry; a 1 MB download over 2 s yields 4.0 Mbps. -/
theorem C8_download_noise_floor_witness :
    (speed_test_hysteria_key scQuick senvBase).1 = none ∧
    speedCollect [("k", (speed_test_hysteria_key scQuick senvBase).1)] = [] ∧
    (speed_test_hysteria_key scQuick senvGood).1 = some 4 := by
  have hlat1 : (latencySamples scQuick senvBase).isEmpty = false := by
    simp [latencySamples, latencyIndices, scQuick, senvBase, aOK,
      List.range_succ, List.takeWhile]
  have hlat2 : (latencySamples scQuick senvGood).isEmpty = false := by
    simp [latencySamples, latencyIndices, scQuick, senvGood, senvBase, aOK,
      List.range_succ, List.takeWhile]
  have h1 := C8_download_noise_floor scQuick senvBase 2080
    (by decide) rfl rfl rfl
    (by rw [show senvBase.procDeadAt = fun _ => false from rfl]
        exact startupDied_of_never_dead _)
    rfl hlat1 (Or.inl ⟨rfl, by decide⟩)
  have h2 := C8_download_noise_floor scQuick senvGood 2080
    (by decide) rfl rfl rfl
    (by rw [show senvGood.procDeadAt = fun _ => false from rfl]
        exact startupDied_of_never_dead _)
    rfl hlat2 (Or.inl ⟨rfl, by decide⟩)
  have hfloor1 : senvBase.download.elapsed < 3/10 := by
    norm_num [senvBase, dlNoise]
  have h1' := h1.1 hfloor1
  refine ⟨h1'.1, h1'.2 "k" [], ?_⟩
  have hfloor2 : ¬ senvGood.download.elapsed < 3/10 := by
    norm_num [senvGood, senvBase, dlGood]
  rw [h2.2 hfloor2 rfl rfl]
  norm_num [senvGood, senvBase, dlGood, pyRound2]

/-- C9: a candidate with `ok = True` is appended to `available` (the OK
running total and the source of both output files) iff its average
response time in milliseconds is at most `MAX_LATENCY_MS`; every line of
the full result file comes from an included candidate, and the top-100
file is a subset of the full file — so a passing candidate whose average
latency exceeds the cap appears in neither. -/
theorem C9_latency_filter_post_validation (cfg : Config) :
    (∀ (ok : Bool) (m : Metrics),
      mainIncludes cfg ok m = true ↔
        ok = true ∧ mainLatencyMs m ≤ cfg.MAX_LATENCY_MS) ∧
    (∀ (results : List (String × Bool × Metrics)) (name : String),
      name ∈ mainOutputLines cfg results →
        ∃ r, r ∈ results ∧ r.1 = name ∧ r.2.1 = true ∧
          mainLatencyMs r.2.2 ≤ cfg.MAX_LATENCY_MS) ∧
    (∀ results : List (String × Bool × Metrics),
      mainTop100 cfg results ⊆ mainOutputLines cfg results) ∧
    (∀ results : List (String × Bool × Metrics),
      (mainAvailable cfg results).length =
        (results.filter (fun r => mainIncludes cfg r.2.1 r.2.2)).length) := by
  refine ⟨?_, ?_, ?_, ?_⟩
  · intro ok m
    simp [mainIncludes]
  · intro results name hname
    simp only [mainOutputLines, List.mem_map] at hname
    obtain ⟨pair, hpair, hfst⟩ := hname
    have hpair' : pair ∈ mainAvailable cfg results :=
      (List.mergeSort_perm (mainAvailable cfg results) _).mem_iff.mp hpair
    simp only [mainAvailable, List.mem_map, List.mem_filter] at hpair'
    obtain ⟨r, ⟨hr, hinc⟩, hpr⟩ := hpair'
    have hinc' : r.2.1 = true ∧ mainLatencyMs r.2.2 ≤ cfg.MAX_LATENCY_MS := by
      simpa [mainIncludes] using hinc
    refine ⟨r, hr, ?_, hinc'.1, hinc'.2⟩
    rw [← hfst, ← hpr]
  · intro results
    exact List.take_subset 100 (mainOutputLines cfg results)
  · intro results
    simp [mainAvailable]

/-- Witness for C9: a passing candidate with a single 3 s sample
(3000 ms average) against a 2000 ms cap is not included, and the output
of a batch holding only that candidate is empty. -/
theorem C9_latency_filter_post_validation_witness :
    mainIncludes cfgBase true mHighLatency = false ∧
    "k" ∉ mainOutputLines cfgBase [("k", true, mHighLatency)] := by
  have h := C9_latency_filter_post_validation cfgBase
  have hlat : mainLatencyMs mHighLatency = 3000 := by
    norm_num [mainLatencyMs, mHighLatency]
  constructor
  · have hiff := h.1 true mHighLatency
    rw [hlat] at hiff
    have : ¬ ((3000 : ℚ) ≤ cfgBase.MAX_LATENCY_MS) := by
      norm_num [cfgBase]
    simp only [true_and, this, iff_false, Bool.not_eq_true] at hiff
    exact hiff
  · intro hmem
    obtain ⟨r, hr, _, _, hle⟩ := h.2.1 [("k", true, mHighLatency)] "k" hmem
    simp only [List.mem_singleton] at hr
    rw [hr] at hle
    rw [hlat] at hle
    norm_num [cfgBase] at hle

end XrayCheck
